import Mathlib

/-!
# Verification of the virtual try-on pose pipeline

Shallow embedding of `src/VirtualTryOn.js`: the per-tick function
`detectAndPositionGlasses` (gating, keypoint geometry, overlay writes) and the
interval scheduler built around it (`setInterval` / `clearInterval` and the
asynchronous detection call).

JavaScript numbers are modelled as real numbers; `Math.sqrt` is `Real.sqrt`
and `Math.atan2` is the standard two-argument arctangent defined below.
-/

namespace VirtualTryOn

/-- Two-argument arctangent with the semantics of JavaScript `Math.atan2 y x`
(range `(-π, π]`, `atan2 0 0 = 0`; floating-point signed zeros are outside the
real-number model). -/
noncomputable def atan2 (y x : ℝ) : ℝ :=
  if 0 < x then Real.arctan (y / x)
  else if x < 0 ∧ 0 ≤ y then Real.arctan (y / x) + Real.pi
  else if x < 0 ∧ y < 0 then Real.arctan (y / x) - Real.pi
  else if x = 0 ∧ 0 < y then Real.pi / 2
  else if x = 0 ∧ y < 0 then -(Real.pi / 2)
  else 0

/-- One entry of `faceEstimates[0].scaledMesh`: a `[x, y, z]` coordinate
triple in video-pixel space. The source reads only components `[0]` (here
`x`) and `[1]` (here `y`). -/
structure Keypoint where
  x : ℝ
  y : ℝ
  z : ℝ

/-- One detected face: its `scaledMesh` keypoint array, modelled as a total
function from landmark index to keypoint (the source indexes it only at
130, 359, 70 and 168). -/
structure Face where
  scaledMesh : ℕ → Keypoint

/-- A mutable 3-component vector field of a three.js object
(`position`, `scale` or `rotation`). -/
structure Vec3 where
  x : ℝ
  y : ℝ
  z : ℝ

/-- The transform fields of the `glassesMesh` three.js object that
`detectAndPositionGlasses` writes. -/
structure Mesh where
  position : Vec3
  scale : Vec3
  rotation : Vec3

/-- Lines 100–103: `eyeDistance`, the Euclidean pixel distance between
`keypoints[359]` (`rightEye`) and `keypoints[130]` (`leftEye`). -/
noncomputable def eyeDistance (keypoints : ℕ → Keypoint) : ℝ :=
  Real.sqrt (((keypoints 359).x - (keypoints 130).x) ^ 2 +
    ((keypoints 359).y - (keypoints 130).y) ^ 2)

/-- Line 104: `scaleMultiplier = eyeDistance / 250`. -/
noncomputable def scaleMultiplier (keypoints : ℕ → Keypoint) : ℝ :=
  eyeDistance keypoints / 250

/-- Lines 92–145: the pose written onto `glassesMesh` in an applying cycle,
as a function of the face's `scaledMesh` keypoints and the video frame
dimensions. Every transform field is overwritten: `position.x`/`position.y`
(lines 113–117), all three scale axes (line 118), `position.z` (line 123)
and all three rotation axes (lines 143–145), so the result does not depend
on the mesh's previous transform. -/
noncomputable def applyPose (keypoints : ℕ → Keypoint)
    (videoWidth videoHeight : ℝ) : Mesh :=
  let leftEye := keypoints 130
  let rightEye := keypoints 359
  let noseTip := keypoints 70
  let eyeCenter := keypoints 168
  let scaleX : ℝ := 0.01
  let scaleY : ℝ := 0.01
  let offsetX : ℝ := 0.0
  let offsetY : ℝ := -0.1
  let angleY := -atan2 (rightEye.y - leftEye.y) (rightEye.x - leftEye.x)
  let angleX := atan2 (eyeCenter.y - noseTip.y) (eyeCenter.x - noseTip.x)
  let angleZ := -atan2 (rightEye.y - leftEye.y) (rightEye.x - leftEye.x)
  { position :=
      { x := (eyeCenter.x - videoWidth / 2) * scaleX + offsetX
        y := (eyeCenter.y - videoHeight / 2) * (-scaleY) + offsetY
        z := 1 }
    scale :=
      { x := scaleMultiplier keypoints
        y := scaleMultiplier keypoints
        z := scaleMultiplier keypoints }
    rotation := { x := angleX, y := angleY, z := angleZ } }

/-- The per-tick environment read by `detectAndPositionGlasses`:
whether `webcamRef.current`, `model` and `glassesMesh` are non-null, the
video element's `readyState`, the resolved `faceEstimates` list, and the
video frame dimensions. -/
structure TickInput where
  webcamPresent : Bool
  modelLoaded : Bool
  glassesLoaded : Bool
  readyState : ℕ
  faces : List Face
  videoWidth : ℝ
  videoHeight : ℝ

/-- Observable outcome of one cycle: the mesh transform afterwards, whether
`model.estimateFaces` was called, and whether the pose-writing block ran. -/
structure CycleResult where
  mesh : Mesh
  detectionIssued : Bool
  poseApplied : Bool

/-- Lines 84–147: one synchronous detection-and-position cycle.
`if (!webcamRef.current || !model || !glassesMesh) return;` then
`if (video.readyState !== 4) return;` then the awaited
`model.estimateFaces` result is applied iff `faceEstimates.length > 0`,
using `faceEstimates[0]`. -/
noncomputable def detectAndPositionGlasses (inp : TickInput) (mesh : Mesh) :
    CycleResult :=
  if inp.webcamPresent = false ∨ inp.modelLoaded = false ∨
      inp.glassesLoaded = false then
    ⟨mesh, false, false⟩
  else if inp.readyState ≠ 4 then
    ⟨mesh, false, false⟩
  else
    match inp.faces with
    | [] => ⟨mesh, true, false⟩
    | f :: _ => ⟨applyPose f.scaledMesh inp.videoWidth inp.videoHeight,
        true, true⟩

/-- An event on the component's single logical timeline: an interval tick
firing (with the gate values it observes), an issued `estimateFaces` promise
resolving (with its face list and the frame dimensions read after the
`await`), or the `useEffect` cleanup running `clearInterval`. -/
inductive SchedEvent where
  | tick (webcamPresent modelLoaded glassesLoaded : Bool) (readyState : ℕ)
  | resolve (faces : List Face) (videoWidth videoHeight : ℝ)
  | stop

/-- Scheduler state: whether the interval is still registered, how many
detection calls are in flight (issued but not yet resolved), and the
`glassesMesh` transform. -/
structure SchedState where
  intervalActive : Bool
  pendingCalls : ℕ
  mesh : Mesh

/-- One timeline event. A tick fires only while the interval is registered;
when the gates of lines 85–87 pass it issues a detection call and suspends
at the `await` of line 89. `clearInterval` (line 154) only deregisters the
interval: it does not cancel in-flight calls, so a later `resolve` still
runs the continuation of lines 90–146, which writes the mesh whenever the
face list is non-empty. -/
noncomputable def schedStep (s : SchedState) : SchedEvent → SchedState
  | SchedEvent.tick w m g r =>
      if s.intervalActive = false then s
      else if w = false ∨ m = false ∨ g = false then s
      else if r ≠ 4 then s
      else { s with pendingCalls := s.pendingCalls + 1 }
  | SchedEvent.resolve faces vw vh =>
      if s.pendingCalls = 0 then s
      else
        match faces with
        | [] => { s with pendingCalls := s.pendingCalls - 1 }
        | f :: _ =>
            { intervalActive := s.intervalActive
              pendingCalls := s.pendingCalls - 1
              mesh := applyPose f.scaledMesh vw vh }
  | SchedEvent.stop => { s with intervalActive := false }

/-- Run a sequence of timeline events. -/
noncomputable def runSched (s : SchedState) (es : List SchedEvent) :
    SchedState :=
  es.foldl schedStep s

/-- Concrete keypoint array used for witnesses: the scenario of the spec's
testable-properties section (`eyeLeft = (100,200)`, `eyeRight = (300,200)`,
`nose = (200,260)`, `eyeCenter = (200,200)`). -/
noncomputable def kp0 : ℕ → Keypoint := fun i =>
  if i = 130 then ⟨100, 200, 0⟩
  else if i = 359 then ⟨300, 200, 0⟩
  else if i = 70 then ⟨200, 260, 0⟩
  else if i = 168 then ⟨200, 200, 0⟩
  else ⟨0, 0, 0⟩

/-- Same four working keypoints as `kp0`, different everywhere else. -/
noncomputable def kpAlt : ℕ → Keypoint := fun i =>
  if i = 130 then ⟨100, 200, 0⟩
  else if i = 359 then ⟨300, 200, 0⟩
  else if i = 70 then ⟨200, 260, 0⟩
  else if i = 168 then ⟨200, 200, 0⟩
  else ⟨7, 7, 7⟩

/-- A concrete detected face for witnesses. -/
noncomputable def face0 : Face := ⟨kp0⟩

/-- A concrete mesh transform (all fields zero) for witnesses. -/
noncomputable def m0 : Mesh := ⟨⟨0, 0, 0⟩, ⟨0, 0, 0⟩, ⟨0, 0, 0⟩⟩

/-- A fully ready tick input with one detected face, 800×800 frame. -/
noncomputable def inp0 : TickInput := ⟨true, true, true, 4, [face0], 800, 800⟩

/-- A tick input with the webcam reference absent. -/
noncomputable def inpIdle : TickInput :=
  ⟨false, true, true, 4, [face0], 800, 800⟩

/-- A fully ready tick input whose detection returns no face. -/
noncomputable def inpEmptyFaces : TickInput := ⟨true, true, true, 4, [], 800, 800⟩

/-- A tick input that is ready except for `video.readyState = 3`. -/
noncomputable def inpNotReady : TickInput :=
  ⟨true, true, true, 3, [face0], 800, 800⟩

/-- Cross-check of the embedding against the worked scenario of the spec's
testable-properties section: with `kp0` and an 800×800 frame,
`eyeDistance = 200`, `scale = 0.8`, `position.x = -2.0`, `position.y = 1.9`. -/
theorem spec_scenario_values :
    eyeDistance kp0 = 200 ∧ scaleMultiplier kp0 = 0.8 ∧
    (applyPose kp0 800 800).scale.x = 0.8 ∧
    (applyPose kp0 800 800).position.x = -2 ∧
    (applyPose kp0 800 800).position.y = 1.9 := by
  have hd : eyeDistance kp0 = 200 := by
    unfold eyeDistance
    norm_num [kp0]
    rw [show (40000 : ℝ) = 200 ^ 2 by norm_num]
    exact Real.sqrt_sq (by norm_num)
  have hs : scaleMultiplier kp0 = 0.8 := by
    unfold scaleMultiplier
    rw [hd]
    norm_num
  refine ⟨hd, hs, ?_, ?_, ?_⟩
  · show scaleMultiplier kp0 = 0.8
    exact hs
  · show ((kp0 168).x - 800 / 2) * 0.01 + 0.0 = -2
    norm_num [kp0]
  · show ((kp0 168).y - 800 / 2) * (-0.01) + (-0.1) = 1.9
    norm_num [kp0]

/-- C1: in an applying cycle the scale written to the overlay equals the
Euclidean pixel distance between keypoints 130 and 359 divided by 250, the
same scalar on all three axes; the scale factor is linear in eye distance
(doubling the distance doubles it) and is 0 when the two eye keypoints
coincide. -/
theorem scale_factor_from_eye_distance (inp : TickInput) (m : Mesh) (f : Face)
    (rest : List Face)
    (hw : inp.webcamPresent = true) (hm : inp.modelLoaded = true)
    (hg : inp.glassesLoaded = true) (hr : inp.readyState = 4)
    (hf : inp.faces = f :: rest) :
    ((detectAndPositionGlasses inp m).mesh.scale.x
        = eyeDistance f.scaledMesh / 250 ∧
      (detectAndPositionGlasses inp m).mesh.scale.y
        = eyeDistance f.scaledMesh / 250 ∧
      (detectAndPositionGlasses inp m).mesh.scale.z
        = eyeDistance f.scaledMesh / 250) ∧
    (∀ g₁ g₂ : ℕ → Keypoint, eyeDistance g₂ = 2 * eyeDistance g₁ →
      scaleMultiplier g₂ = 2 * scaleMultiplier g₁) ∧
    (∀ g : ℕ → Keypoint, g 130 = g 359 → scaleMultiplier g = 0) := by
  refine ⟨?_, ?_, ?_⟩
  · simp [detectAndPositionGlasses, hw, hm, hg, hr, hf, applyPose,
      scaleMultiplier]
  · intro g₁ g₂ h
    simp [scaleMultiplier, h, mul_div_assoc]
  · intro g h
    simp [scaleMultiplier, eyeDistance, h]

/-- C1 witness: the theorem applied to the concrete ready input `inp0`. -/
theorem scale_factor_from_eye_distance_witness :
    ((detectAndPositionGlasses inp0 m0).mesh.scale.x
        = eyeDistance face0.scaledMesh / 250 ∧
      (detectAndPositionGlasses inp0 m0).mesh.scale.y
        = eyeDistance face0.scaledMesh / 250 ∧
      (detectAndPositionGlasses inp0 m0).mesh.scale.z
        = eyeDistance face0.scaledMesh / 250) ∧
    (∀ g₁ g₂ : ℕ → Keypoint, eyeDistance g₂ = 2 * eyeDistance g₁ →
      scaleMultiplier g₂ = 2 * scaleMultiplier g₁) ∧
    (∀ g : ℕ → Keypoint, g 130 = g 359 → scaleMultiplier g = 0) :=
  scale_factor_from_eye_distance inp0 m0 face0 [] rfl rfl rfl rfl rfl

/-- C2: in an applying cycle the overlay position written is
`x = (eyeCenter.x - videoWidth/2) * 0.01 + 0`,
`y = (eyeCenter.y - videoHeight/2) * (-0.01) + (-0.1)`, and `z = 1`
regardless of the keypoints. -/
theorem position_formula (inp : TickInput) (m : Mesh) (f : Face)
    (rest : List Face)
    (hw : inp.webcamPresent = true) (hm : inp.modelLoaded = true)
    (hg : inp.glassesLoaded = true) (hr : inp.readyState = 4)
    (hf : inp.faces = f :: rest) :
    (detectAndPositionGlasses inp m).mesh.position.x
      = ((f.scaledMesh 168).x - inp.videoWidth / 2) * 0.01 + 0 ∧
    (detectAndPositionGlasses inp m).mesh.position.y
      = ((f.scaledMesh 168).y - inp.videoHeight / 2) * (-0.01) + (-0.1) ∧
    (detectAndPositionGlasses inp m).mesh.position.z = 1 := by
  refine ⟨?_, ?_, ?_⟩
  · simp [detectAndPositionGlasses, hw, hm, hg, hr, hf, applyPose]
    norm_num
  · simp [detectAndPositionGlasses, hw, hm, hg, hr, hf, applyPose]
  · simp [detectAndPositionGlasses, hw, hm, hg, hr, hf, applyPose]

/-- C2 witness: the theorem applied to the concrete ready input `inp0`. -/
theorem position_formula_witness :
    (detectAndPositionGlasses inp0 m0).mesh.position.x
      = ((face0.scaledMesh 168).x - inp0.videoWidth / 2) * 0.01 + 0 ∧
    (detectAndPositionGlasses inp0 m0).mesh.position.y
      = ((face0.scaledMesh 168).y - inp0.videoHeight / 2) * (-0.01) + (-0.1) ∧
    (detectAndPositionGlasses inp0 m0).mesh.position.z = 1 :=
  position_formula inp0 m0 face0 [] rfl rfl rfl rfl rfl

/-- C3: in an applying cycle the roll-equivalent rotation (the `z` axis)
equals the negated `atan2` of the eye-to-eye line, and the pitch-equivalent
rotation (the `x` axis) equals the `atan2` of the vector from the nose-tip
keypoint (70) to the eye-center keypoint (168). -/
theorem rotation_formula (inp : TickInput) (m : Mesh) (f : Face)
    (rest : List Face)
    (hw : inp.webcamPresent = true) (hm : inp.modelLoaded = true)
    (hg : inp.glassesLoaded = true) (hr : inp.readyState = 4)
    (hf : inp.faces = f :: rest) :
    (detectAndPositionGlasses inp m).mesh.rotation.z
      = -atan2 ((f.scaledMesh 359).y - (f.scaledMesh 130).y)
          ((f.scaledMesh 359).x - (f.scaledMesh 130).x) ∧
    (detectAndPositionGlasses inp m).mesh.rotation.x
      = atan2 ((f.scaledMesh 168).y - (f.scaledMesh 70).y)
          ((f.scaledMesh 168).x - (f.scaledMesh 70).x) := by
  constructor <;>
    simp [detectAndPositionGlasses, hw, hm, hg, hr, hf, applyPose]

/-- C3 witness: the theorem applied to the concrete ready input `inp0`. -/
theorem rotation_formula_witness :
    (detectAndPositionGlasses inp0 m0).mesh.rotation.z
      = -atan2 ((face0.scaledMesh 359).y - (face0.scaledMesh 130).y)
          ((face0.scaledMesh 359).x - (face0.scaledMesh 130).x) ∧
    (detectAndPositionGlasses inp0 m0).mesh.rotation.x
      = atan2 ((face0.scaledMesh 168).y - (face0.scaledMesh 70).y)
          ((face0.scaledMesh 168).x - (face0.scaledMesh 70).x) :=
  rotation_formula inp0 m0 face0 [] rfl rfl rfl rfl rfl

/-- C4: in an applying cycle the yaw-equivalent (`y` axis) and
roll-equivalent (`z` axis) rotation angles written to the overlay are
numerically equal, both being the same negated eye-line arctangent. -/
theorem roll_yaw_equal (inp : TickInput) (m : Mesh) (f : Face)
    (rest : List Face)
    (hw : inp.webcamPresent = true) (hm : inp.modelLoaded = true)
    (hg : inp.glassesLoaded = true) (hr : inp.readyState = 4)
    (hf : inp.faces = f :: rest) :
    (detectAndPositionGlasses inp m).mesh.rotation.y
      = (detectAndPositionGlasses inp m).mesh.rotation.z := by
  simp [detectAndPositionGlasses, hw, hm, hg, hr, hf, applyPose]

/-- C4 witness: the theorem applied to the concrete ready input `inp0`. -/
theorem roll_yaw_equal_witness :
    (detectAndPositionGlasses inp0 m0).mesh.rotation.y
      = (detectAndPositionGlasses inp0 m0).mesh.rotation.z :=
  roll_yaw_equal inp0 m0 face0 [] rfl rfl rfl rfl rfl

/-- C5: a cycle whose detection returns an empty result issues the detection
call but leaves every transform field of the overlay identical to its
pre-cycle value and never runs the pose-writing block. -/
theorem skipping_cycle_no_mutation (inp : TickInput) (m : Mesh)
    (hw : inp.webcamPresent = true) (hm : inp.modelLoaded = true)
    (hg : inp.glassesLoaded = true) (hr : inp.readyState = 4)
    (hf : inp.faces = []) :
    (detectAndPositionGlasses inp m).detectionIssued = true ∧
    (detectAndPositionGlasses inp m).mesh = m ∧
    (detectAndPositionGlasses inp m).poseApplied = false := by
  refine ⟨?_, ?_, ?_⟩ <;> simp [detectAndPositionGlasses, hw, hm, hg, hr, hf]

/-- C5 witness: the theorem applied to a ready input with no detected face. -/
theorem skipping_cycle_no_mutation_witness :
    (detectAndPositionGlasses inpEmptyFaces m0).detectionIssued = true ∧
    (detectAndPositionGlasses inpEmptyFaces m0).mesh = m0 ∧
    (detectAndPositionGlasses inpEmptyFaces m0).poseApplied = false :=
  skipping_cycle_no_mutation inpEmptyFaces m0 rfl rfl rfl rfl rfl

/-- C6: when any readiness prerequisite is unset the cycle issues no
detection call and performs no mutation; moreover the pose-writing block
runs only when all three readiness gates hold and a face was detected, and
a cycle that does not run it leaves the mesh unchanged. -/
theorem idle_never_polls (inp : TickInput) (m : Mesh)
    (h : inp.webcamPresent = false ∨ inp.modelLoaded = false ∨
      inp.glassesLoaded = false) :
    ((detectAndPositionGlasses inp m).detectionIssued = false ∧
      (detectAndPositionGlasses inp m).mesh = m ∧
      (detectAndPositionGlasses inp m).poseApplied = false) ∧
    (∀ (inp2 : TickInput) (m2 : Mesh),
      (detectAndPositionGlasses inp2 m2).poseApplied = true →
        inp2.webcamPresent = true ∧ inp2.modelLoaded = true ∧
        inp2.glassesLoaded = true ∧ inp2.faces ≠ []) ∧
    (∀ (inp2 : TickInput) (m2 : Mesh),
      (detectAndPositionGlasses inp2 m2).mesh = m2 ∨
        (detectAndPositionGlasses inp2 m2).poseApplied = true) := by
  refine ⟨?_, ?_, ?_⟩
  · unfold detectAndPositionGlasses
    rw [if_pos h]
    exact ⟨rfl, rfl, rfl⟩
  · intro inp2 m2 h2
    unfold detectAndPositionGlasses at h2
    split at h2
    · simp at h2
    · split at h2
      · simp at h2
      · split at h2
        · simp at h2
        · simp_all [not_or, Bool.not_eq_false]
  · intro inp2 m2
    unfold detectAndPositionGlasses
    split
    · exact Or.inl rfl
    · split
      · exact Or.inl rfl
      · split
        · exact Or.inl rfl
        · exact Or.inr rfl

/-- C6 witness: the theorem applied to an input with the webcam gate unset. -/
theorem idle_never_polls_witness :
    ((detectAndPositionGlasses inpIdle m0).detectionIssued = false ∧
      (detectAndPositionGlasses inpIdle m0).mesh = m0 ∧
      (detectAndPositionGlasses inpIdle m0).poseApplied = false) ∧
    (∀ (inp2 : TickInput) (m2 : Mesh),
      (detectAndPositionGlasses inp2 m2).poseApplied = true →
        inp2.webcamPresent = true ∧ inp2.modelLoaded = true ∧
        inp2.glassesLoaded = true ∧ inp2.faces ≠ []) ∧
    (∀ (inp2 : TickInput) (m2 : Mesh),
      (detectAndPositionGlasses inp2 m2).mesh = m2 ∨
        (detectAndPositionGlasses inp2 m2).poseApplied = true) :=
  idle_never_polls inpIdle m0 (Or.inl rfl)

/-- C8: even with all readiness gates set, a tick whose video element has
`readyState ≠ 4` issues no detection call and performs no mutation. -/
theorem video_not_ready_noop (inp : TickInput) (m : Mesh)
    (hr : inp.readyState ≠ 4) :
    (detectAndPositionGlasses inp m).detectionIssued = false ∧
    (detectAndPositionGlasses inp m).mesh = m ∧
    (detectAndPositionGlasses inp m).poseApplied = false := by
  unfold detectAndPositionGlasses
  split
  · exact ⟨rfl, rfl, rfl⟩
  · exact ⟨rfl, rfl, rfl⟩

/-- C8 witness: the theorem applied to a ready input with `readyState = 3`. -/
theorem video_not_ready_noop_witness :
    (detectAndPositionGlasses inpNotReady m0).detectionIssued = false ∧
    (detectAndPositionGlasses inpNotReady m0).mesh = m0 ∧
    (detectAndPositionGlasses inpNotReady m0).poseApplied = false :=
  video_not_ready_noop inpNotReady m0 (by decide)

/-- C9: the pose written in an applying cycle depends only on the keypoints
at indices 130, 359, 70 and 168 and on the frame dimensions: two keypoint
arrays agreeing at those four indices yield identical position, scale and
rotation. -/
theorem pose_depends_only_on_four_keypoints (kp1 kp2 : ℕ → Keypoint)
    (w h : ℝ) (h130 : kp1 130 = kp2 130) (h359 : kp1 359 = kp2 359)
    (h70 : kp1 70 = kp2 70) (h168 : kp1 168 = kp2 168) :
    applyPose kp1 w h = applyPose kp2 w h := by
  unfold applyPose scaleMultiplier eyeDistance
  rw [h130, h359, h70, h168]

/-- C9 witness: the theorem applied to `kp0` and `kpAlt`, which agree at
the four used indices and differ everywhere else. -/
theorem pose_depends_only_on_four_keypoints_witness :
    applyPose kp0 800 800 = applyPose kpAlt 800 800 :=
  pose_depends_only_on_four_keypoints kp0 kpAlt 800 800
    (by simp [kp0, kpAlt]) (by simp [kp0, kpAlt]) (by simp [kp0, kpAlt])
    (by simp [kp0, kpAlt])

/-- C10: the scale scalar written in an applying cycle is non-negative (a
Euclidean distance divided by the positive constant 250) and identical on
all three axes: the overlay is never written with a mirroring scale. -/
theorem scale_never_negative (kp : ℕ → Keypoint) (w h : ℝ) :
    0 ≤ (applyPose kp w h).scale.x ∧
    (applyPose kp w h).scale.y = (applyPose kp w h).scale.x ∧
    (applyPose kp w h).scale.z = (applyPose kp w h).scale.x := by
  refine ⟨?_, rfl, rfl⟩
  have hx : (applyPose kp w h).scale.x = scaleMultiplier kp := rfl
  rw [hx]
  unfold scaleMultiplier
  exact div_nonneg (Real.sqrt_nonneg _) (by norm_num)

/-- C7 counterexample: a detection call issued by a tick is still in flight
when `clearInterval` runs; when it later resolves with a face, the overlay
is written after the stop. Concretely: from an active scheduler with the
zero mesh, after `tick; stop` the interval is cleared and `position.z` is
still `0`, yet the subsequent `resolve` of the in-flight call sets
`position.z = 1` — a write to the overlay after the scheduler stopped, so
the in-flight result is applied, not discarded. -/
theorem stop_discards_in_flight_counterexample :
    (runSched ⟨true, 0, m0⟩
        [SchedEvent.tick true true true 4, SchedEvent.stop]).intervalActive
      = false ∧
    (runSched ⟨true, 0, m0⟩
        [SchedEvent.tick true true true 4, SchedEvent.stop]).mesh.position.z
      = 0 ∧
    (runSched ⟨true, 0, m0⟩
        [SchedEvent.tick true true true 4, SchedEvent.stop,
          SchedEvent.resolve [face0] 800 800]).mesh.position.z = 1 := by
  refine ⟨rfl, rfl, ?_⟩
  simp [runSched, schedStep, m0, applyPose]

/-- C7 amended: after the interval is cleared no further ticks run, so no
new detection calls are issued and the state is unchanged by tick events;
but a detection call already in flight at stop time is not cancelled — when
it resolves with a detected face its pose is still applied to the overlay. -/
theorem stop_amended (s : SchedState) :
    (∀ (w mo g : Bool) (r : ℕ), s.intervalActive = false →
      schedStep s (SchedEvent.tick w mo g r) = s) ∧
    (∀ (f : Face) (fs : List Face) (vw vh : ℝ), s.pendingCalls ≠ 0 →
      (schedStep s (SchedEvent.resolve (f :: fs) vw vh)).mesh
        = applyPose f.scaledMesh vw vh) := by
  constructor
  · intro w mo g r hs
    simp [schedStep, hs]
  · intro f fs vw vh hp
    simp [schedStep, hp]

/-- C7 amended-claim witness: the theorem applied to concrete stopped and
one-call-pending states. -/
theorem stop_amended_witness :
    schedStep ⟨false, 0, m0⟩ (SchedEvent.tick true true true 4)
      = ⟨false, 0, m0⟩ ∧
    (schedStep ⟨false, 1, m0⟩ (SchedEvent.resolve [face0] 800 800)).mesh
      = applyPose face0.scaledMesh 800 800 :=
  ⟨(stop_amended ⟨false, 0, m0⟩).1 true true true 4 rfl,
    (stop_amended ⟨false, 1, m0⟩).2 face0 [] 800 800 (by decide)⟩

end VirtualTryOn
